import Mathlib

/-!
Verification of the `@solid-primitives/media` package
(`src/packages/media/src/{index,common,server}.ts`).

The TypeScript code is shallowly embedded as follows.

* JavaScript objects with string keys (the breakpoint set, the match
  mapping, the collection of MediaQueryList instances) are association
  lists `List (String × α)` in declaration order; `Object.entries`
  iteration is iteration over the list, and property assignment
  `obj[k] = v` is `objSet` (overwrite the first entry with that key,
  else append).
* The platform environment is a structure `Env` carrying `isServer`
  (the `solid-js/web` flag), `hasMatchMedia` (whether
  `window.matchMedia` is defined) and `matchMedia : String → Bool`
  giving, for a query string, the current `.matches` state of the
  `MediaQueryList` the platform would return for it.  A `MediaQueryList`
  instance is identified by its query string.
* Reactivity is made explicit: the store created by `createBreakpoints`
  starts at `getInitialMatches` and each `change` event delivered on a
  handle with a registered listener applies `setMatches`; a run of the
  observer is a fold of delivered events over the initial mapping
  (`runMatches`).  Listener registrations performed by the effect and
  the `onCleanup` removals executed at scope disposal are recorded as
  action lists.
-/

namespace SolidMedia

/-- JavaScript object property assignment on an association list:
overwrite the (first, hence in a real object the only) entry with key
`k`, else append `(k, v)` at the end, as JS property creation does. -/
def objSet {α : Type} : List (String × α) → String → α → List (String × α)
  | [], k, v => [(k, v)]
  | (k', v') :: rest, k, v =>
    if k' = k then (k', v) :: rest else (k', v') :: objSet rest k v

/-- A breakpoint set: `Object.entries` view of the `breakpoints`
argument, breakpoint token to width string, in declaration order. -/
abbrev Breakpoints := List (String × String)

/-- A match mapping: breakpoint token to current boolean match state. -/
abbrev Matches := List (String × Bool)

/-- The `responsiveMode` option values of `BreakpointOptions`. -/
inductive ResponsiveMode : Type
  | mobileFirst
  | desktopFirst
deriving DecidableEq

/-- The `BreakpointOptions` record; `none` in a field means the option
was not supplied by the caller. -/
structure BreakpointOptions : Type where
  responsiveMode : Option ResponsiveMode
  watchChange : Option Bool
  fallbackMatch : Option Matches

/-- The platform environment seen by the module. -/
structure Env : Type where
  isServer : Bool
  hasMatchMedia : Bool
  matchMedia : String → Bool

/-- `checkMqSupported` from `index.ts`: false on the server or when
`window.matchMedia` is missing, true otherwise. -/
def checkMqSupported (env : Env) : Bool :=
  if env.isServer then false
  else if !env.hasMatchMedia then false
  else true

/-- The query string built for one breakpoint inside `createBreakpoints`:
`options.responsiveMode === "desktop-first" ? "max" : "min"` prefixed to
`-width: <width>` inside parentheses. -/
def buildMediaQuery (mode : Option ResponsiveMode) (width : String) : String :=
  let responsiveProperty := if mode = some ResponsiveMode.desktopFirst then "max" else "min"
  "(" ++ responsiveProperty ++ "-width: " ++ width ++ ")"

/-- The `mqlInstances` memo of `createBreakpoints`: when the query
facility is supported, an object mapping each breakpoint token to the
`MediaQueryList` instance for its direction-specific query (an instance
is identified by its query string); otherwise the empty object. -/
def mqlInstances (env : Env) (opts : BreakpointOptions) (bps : Breakpoints) :
    List (String × String) :=
  if checkMqSupported env then
    bps.foldl (fun m p => objSet m p.1 (buildMediaQuery opts.responsiveMode p.2)) []
  else []

/-- `getEmptyMatchesFromBreakpoints` from `common.ts`: builds an object
with the breakpoint set's keys, every value `false`. -/
def getEmptyMatchesFromBreakpoints (bps : Breakpoints) : Matches :=
  bps.foldl (fun m p => objSet m p.1 false) []

/-- `getInitialMatches` from `createBreakpoints`: on the unsupported
branch `options.fallbackMatch || getEmptyMatchesFromBreakpoints(...)`,
otherwise each instance's current `.matches` keyed by its token. -/
def getInitialMatches (env : Env) (opts : BreakpointOptions) (bps : Breakpoints) : Matches :=
  if checkMqSupported env = false then
    opts.fallbackMatch.getD (getEmptyMatchesFromBreakpoints bps)
  else
    (mqlInstances env opts bps).foldl (fun m p => objSet m p.1 (env.matchMedia p.2)) []

/-- The tokens for which the effect of `createBreakpoints` registers a
`change` listener: all instance tokens when `options.watchChange ?? true`
holds and the facility is supported, none otherwise. -/
def listenerTokens (env : Env) (opts : BreakpointOptions) (bps : Breakpoints) : List String :=
  if opts.watchChange.getD true && checkMqSupported env then
    (mqlInstances env opts bps).map Prod.fst
  else []

/-- The store setter `setMatches(token, event.matches)` used by each
change listener. -/
def setMatches (m : Matches) (token : String) (v : Bool) : Matches :=
  objSet m token v

/-- Delivery of one platform `change` event `(token, matches)`: only a
handle with a registered listener updates the store, and its listener
writes that token's entry. -/
def deliverEvent (env : Env) (opts : BreakpointOptions) (bps : Breakpoints)
    (m : Matches) (ev : String × Bool) : Matches :=
  if ev.1 ∈ listenerTokens env opts bps then setMatches m ev.1 ev.2 else m

/-- The match mapping exposed by `createBreakpoints` after a sequence of
delivered `change` events: the initial mapping folded through event
delivery. -/
def runMatches (env : Env) (opts : BreakpointOptions) (bps : Breakpoints)
    (events : List (String × Bool)) : Matches :=
  events.foldl (deliverEvent env opts bps) (getInitialMatches env opts bps)

/-- Listener bookkeeping actions performed against the platform. -/
inductive Action : Type
  | addListener (token : String)
  | removeListener (token : String)
deriving DecidableEq

/-- The `addEventListener` calls performed by the effect body of
`createBreakpoints`, in breakpoint order. -/
def effectAdds (env : Env) (opts : BreakpointOptions) (bps : Breakpoints) : List Action :=
  (listenerTokens env opts bps).map Action.addListener

/-- The `removeEventListener` calls performed when the owning scope is
disposed: the `onCleanup` registered next to each `addEventListener`,
all of them executed together at disposal. -/
def disposeRemovals (env : Env) (opts : BreakpointOptions) (bps : Breakpoints) : List Action :=
  (listenerTokens env opts bps).map Action.removeListener

/-- The observable outcome of one `createMediaQuery` call: the value the
returned signal is fixed at before any change event, the media queries
evaluated against the platform, and the number of listener
registrations performed. -/
structure MediaQueryResult : Type where
  state : Bool
  queriesEvaluated : List String
  listenersAdded : Nat
deriving DecidableEq

/-- `createMediaQuery` from `index.ts`.  On the server the signal starts
at `fallbackState`, nothing is queried and nothing is subscribed.  In a
browser `window.matchMedia(query)` is called unconditionally, so when
`matchMedia` is missing the call throws (`none`); otherwise the signal
starts at `mql.matches` and, if `watchChange`, one listener is added. -/
def createMediaQuery (env : Env) (query : String) (fallbackState : Bool)
    (watchChange : Bool) : Option MediaQueryResult :=
  if env.isServer then
    some (MediaQueryResult.mk fallbackState [] 0)
  else if env.hasMatchMedia then
    some (MediaQueryResult.mk (env.matchMedia query) [query]
      (if watchChange then 1 else 0))
  else none

/-- `createMediaQuery` from `server.ts`: `() => false`, ignoring every
argument; no query evaluation, no subscription. -/
def serverCreateMediaQuery (_query : String) (_initialState : Bool)
    (_watchChange : Bool) : MediaQueryResult :=
  MediaQueryResult.mk false [] 0

/-- `createBreakpoints` from `server.ts`:
`options.fallbackMatch || getEmptyMatchesFromBreakpoints(breakpoints)`. -/
def serverCreateBreakpoints (bps : Breakpoints) (opts : BreakpointOptions) : Matches :=
  opts.fallbackMatch.getD (getEmptyMatchesFromBreakpoints bps)

/-! ## Helper lemmas about `objSet` and object-building folds -/

theorem objSet_of_not_mem {α : Type} {m : List (String × α)} {k : String} {v : α}
    (h : k ∉ m.map Prod.fst) : objSet m k v = m ++ [(k, v)] := by
  induction m with
  | nil => rfl
  | cons p rest ih =>
    obtain ⟨a, b⟩ := p
    simp only [List.map_cons, List.mem_cons, not_or] at h
    have ha : ¬ a = k := Ne.symm h.1
    simp only [objSet, if_neg ha, List.cons_append]
    exact congrArg (List.cons (a, b)) (ih h.2)

theorem lookup_objSet_self {α : Type} (m : List (String × α)) (k : String) (v : α) :
    List.lookup k (objSet m k v) = some v := by
  induction m with
  | nil => simp [objSet, List.lookup]
  | cons p rest ih =>
    obtain ⟨a, b⟩ := p
    by_cases h : a = k
    · subst h
      simp [objSet, List.lookup]
    · simp only [objSet, if_neg h, List.lookup, beq_false_of_ne (Ne.symm h)]
      exact ih

theorem lookup_objSet_ne {α : Type} (m : List (String × α)) {k k' : String} (v : α)
    (h : k' ≠ k) : List.lookup k' (objSet m k v) = List.lookup k' m := by
  induction m with
  | nil => simp [objSet, List.lookup, beq_false_of_ne h]
  | cons p rest ih =>
    obtain ⟨a, b⟩ := p
    by_cases hp : a = k
    · subst hp
      simp [objSet, List.lookup, beq_false_of_ne h]
    · by_cases hp' : k' = a
      · simp [objSet, if_neg hp, List.lookup, hp']
      · simp only [objSet, if_neg hp, List.lookup, beq_false_of_ne hp']
        exact ih

theorem mem_keys_objSet {α : Type} (m : List (String × α)) (k k' : String) (v : α) :
    k' ∈ (objSet m k v).map Prod.fst ↔ k' ∈ m.map Prod.fst ∨ k' = k := by
  induction m with
  | nil => simp [objSet]
  | cons p rest ih =>
    obtain ⟨a, b⟩ := p
    by_cases h : a = k
    · subst h
      have hred : objSet ((a, b) :: rest) a v = (a, v) :: rest := by
        simp [objSet]
      rw [hred]
      simp only [List.map_cons, List.mem_cons]
      tauto
    · simp only [objSet, if_neg h, List.map_cons, List.mem_cons, ih]
      tauto

theorem foldl_objSet_eq_append {α β : Type} (f : String × β → α) :
    ∀ (l : List (String × β)) (acc : List (String × α)),
    (∀ p ∈ l, p.1 ∉ acc.map Prod.fst) → (l.map Prod.fst).Nodup →
    l.foldl (fun m p => objSet m p.1 (f p)) acc = acc ++ l.map (fun p => (p.1, f p)) := by
  intro l
  induction l with
  | nil => intro acc _ _; simp
  | cons p rest ih =>
    intro acc hdisj hnd
    simp only [List.map_cons, List.nodup_cons] at hnd
    have hp : p.1 ∉ acc.map Prod.fst := hdisj p (List.mem_cons_self p rest)
    have hstep : objSet acc p.1 (f p) = acc ++ [(p.1, f p)] := objSet_of_not_mem hp
    have hdisj' : ∀ q ∈ rest, q.1 ∉ (acc ++ [(p.1, f p)]).map Prod.fst := by
      intro q hq
      simp only [List.map_append, List.mem_append, List.map_cons, List.map_nil,
        List.mem_singleton, not_or]
      refine ⟨hdisj q (List.mem_cons_of_mem p hq), ?_⟩
      intro hcontra
      exact hnd.1 (hcontra ▸ List.mem_map_of_mem Prod.fst hq)
    calc (p :: rest).foldl (fun m q => objSet m q.1 (f q)) acc
        = rest.foldl (fun m q => objSet m q.1 (f q)) (acc ++ [(p.1, f p)]) := by
          simp [List.foldl_cons, hstep]
      _ = (acc ++ [(p.1, f p)]) ++ rest.map (fun q => (q.1, f q)) := ih _ hdisj' hnd.2
      _ = acc ++ (p :: rest).map (fun q => (q.1, f q)) := by simp

theorem foldl_objSet_eq_map {α β : Type} (f : String × β → α) (l : List (String × β))
    (hnd : (l.map Prod.fst).Nodup) :
    l.foldl (fun m p => objSet m p.1 (f p)) [] = l.map (fun p => (p.1, f p)) := by
  simpa using foldl_objSet_eq_append f l [] (by simp) hnd

theorem mem_keys_foldl_objSet {α β : Type} (f : String × β → α) :
    ∀ (l : List (String × β)) (acc : List (String × α)) (k : String),
    k ∈ (l.foldl (fun m p => objSet m p.1 (f p)) acc).map Prod.fst ↔
      k ∈ acc.map Prod.fst ∨ k ∈ l.map Prod.fst := by
  intro l
  induction l with
  | nil => intro acc k; simp
  | cons p rest ih =>
    intro acc k
    simp only [List.foldl_cons, List.map_cons, List.mem_cons]
    rw [ih, mem_keys_objSet]
    tauto

/-! ## Characterizations of the observer pipeline -/

theorem mqlInstances_eq_map (env : Env) (opts : BreakpointOptions) (bps : Breakpoints)
    (hsup : checkMqSupported env = true) (hnd : (bps.map Prod.fst).Nodup) :
    mqlInstances env opts bps
      = bps.map (fun p => (p.1, buildMediaQuery opts.responsiveMode p.2)) := by
  unfold mqlInstances
  rw [hsup]
  simpa using foldl_objSet_eq_map (fun p => buildMediaQuery opts.responsiveMode p.2) bps hnd

theorem getEmptyMatches_eq_map (bps : Breakpoints) (hnd : (bps.map Prod.fst).Nodup) :
    getEmptyMatchesFromBreakpoints bps = bps.map (fun p => (p.1, false)) :=
  foldl_objSet_eq_map (fun _ => false) bps hnd

theorem getInitialMatches_eq_map (env : Env) (opts : BreakpointOptions) (bps : Breakpoints)
    (hsup : checkMqSupported env = true) (hnd : (bps.map Prod.fst).Nodup) :
    getInitialMatches env opts bps
      = bps.map (fun p => (p.1, env.matchMedia (buildMediaQuery opts.responsiveMode p.2))) := by
  unfold getInitialMatches
  rw [hsup, mqlInstances_eq_map env opts bps hsup hnd]
  have hnd' : ((bps.map (fun p => (p.1, buildMediaQuery opts.responsiveMode p.2))).map
      Prod.fst).Nodup := by
    simpa [List.map_map, Function.comp] using hnd
  rw [foldl_objSet_eq_map (fun p => env.matchMedia p.2) _ hnd']
  simp [List.map_map, Function.comp]

theorem listenerTokens_eq_keys (env : Env) (opts : BreakpointOptions) (bps : Breakpoints)
    (hw : opts.watchChange.getD true = true) (hsup : checkMqSupported env = true)
    (hnd : (bps.map Prod.fst).Nodup) :
    listenerTokens env opts bps = bps.map Prod.fst := by
  unfold listenerTokens
  rw [hw, hsup, mqlInstances_eq_map env opts bps hsup hnd]
  simp [List.map_map, Function.comp]

theorem mem_listenerTokens_mem_keys (env : Env) (opts : BreakpointOptions) (bps : Breakpoints)
    (k : String) (hk : k ∈ listenerTokens env opts bps) : k ∈ bps.map Prod.fst := by
  unfold listenerTokens at hk
  by_cases hc : opts.watchChange.getD true && checkMqSupported env
  · rw [if_pos hc] at hk
    unfold mqlInstances at hk
    by_cases hs : checkMqSupported env
    · rw [if_pos hs] at hk
      obtain ⟨p, hp, hpk⟩ := List.mem_map.mp hk
      have := (mem_keys_foldl_objSet (fun q => buildMediaQuery opts.responsiveMode q.2)
        bps [] p.1).mp (List.mem_map_of_mem Prod.fst hp)
      simpa [hpk] using this
    · rw [if_neg hs] at hk
      simp at hk
  · rw [if_neg hc] at hk
    simp at hk

theorem mem_keys_getInitialMatches (env : Env) (opts : BreakpointOptions) (bps : Breakpoints)
    (hfb : ∀ f, opts.fallbackMatch = some f →
      ∀ k, k ∈ f.map Prod.fst ↔ k ∈ bps.map Prod.fst) :
    ∀ k, k ∈ (getInitialMatches env opts bps).map Prod.fst ↔ k ∈ bps.map Prod.fst := by
  intro k
  unfold getInitialMatches
  by_cases hs : checkMqSupported env = false
  · rw [if_pos hs]
    cases hf : opts.fallbackMatch with
    | none =>
      simp only [Option.getD_none]
      unfold getEmptyMatchesFromBreakpoints
      simpa using mem_keys_foldl_objSet (fun _ => false) bps [] k
    | some f =>
      simp only [Option.getD_some]
      exact hfb f hf k
  · rw [if_neg hs]
    rw [mem_keys_foldl_objSet (fun p => env.matchMedia p.2) (mqlInstances env opts bps) [] k]
    unfold mqlInstances
    simp only [Bool.not_eq_false] at hs
    rw [if_pos hs]
    simpa using mem_keys_foldl_objSet (fun q => buildMediaQuery opts.responsiveMode q.2) bps [] k

theorem mem_keys_deliverEvent (env : Env) (opts : BreakpointOptions) (bps : Breakpoints)
    (m : Matches) (ev : String × Bool)
    (hinv : ∀ k, k ∈ m.map Prod.fst ↔ k ∈ bps.map Prod.fst) :
    ∀ k, k ∈ (deliverEvent env opts bps m ev).map Prod.fst ↔ k ∈ bps.map Prod.fst := by
  intro k
  unfold deliverEvent
  by_cases hl : ev.1 ∈ listenerTokens env opts bps
  · rw [if_pos hl]
    unfold setMatches
    rw [mem_keys_objSet m ev.1 k ev.2]
    constructor
    · intro h
      rcases h with h | h
      · exact (hinv k).mp h
      · exact h ▸ mem_listenerTokens_mem_keys env opts bps ev.1 hl
    · intro h
      exact Or.inl ((hinv k).mpr h)
  · rw [if_neg hl]
    exact hinv k

theorem lookup_map_of_mem {β α : Type} (f : String × β → α) (bps : List (String × β))
    (hnd : (bps.map Prod.fst).Nodup) (k : String) (w : β) (hmem : (k, w) ∈ bps) :
    List.lookup k (bps.map (fun p => (p.1, f p))) = some (f (k, w)) := by
  induction bps with
  | nil => cases hmem
  | cons p rest ih =>
    obtain ⟨a, b⟩ := p
    simp only [List.map_cons, List.nodup_cons] at hnd
    rcases List.mem_cons.mp hmem with heq | hrest
    · obtain ⟨hk, hw⟩ := Prod.mk.injEq .. ▸ heq
      subst hk
      subst hw
      simp [List.lookup]
    · have hka : k ≠ a := by
        intro hka
        subst hka
        exact hnd.1 (List.mem_map_of_mem Prod.fst hrest)
      simp only [List.map_cons, List.lookup, beq_false_of_ne hka]
      exact ih hnd.2 hrest

theorem listenerTokens_of_unsupported (env : Env) (opts : BreakpointOptions)
    (bps : Breakpoints) (hsup : checkMqSupported env = false) :
    listenerTokens env opts bps = [] := by
  unfold listenerTokens
  rw [hsup]
  simp

theorem listenerTokens_of_no_watch (env : Env) (opts : BreakpointOptions)
    (bps : Breakpoints) (hw : opts.watchChange = some false) :
    listenerTokens env opts bps = [] := by
  unfold listenerTokens
  rw [hw]
  simp

theorem runMatches_of_no_listeners (env : Env) (opts : BreakpointOptions) (bps : Breakpoints)
    (events : List (String × Bool)) (hl : listenerTokens env opts bps = []) :
    runMatches env opts bps events = getInitialMatches env opts bps := by
  unfold runMatches
  have step : ∀ (evs : List (String × Bool)) (m : Matches),
      evs.foldl (deliverEvent env opts bps) m = m := by
    intro evs
    induction evs with
    | nil => intro m; rfl
    | cons e rest ih =>
      intro m
      have hde : deliverEvent env opts bps m e = m := by
        unfold deliverEvent
        rw [hl]
        simp
      rw [List.foldl_cons, hde]
      exact ih m
  exact step events _

theorem count_map_injective {α β : Type} [DecidableEq α] [DecidableEq β] (g : α → β)
    (hg : ∀ a b, g a = g b → a = b) (l : List α) (t : α) :
    (l.map g).count (g t) = l.count t := by
  induction l with
  | nil => rfl
  | cons a rest ih =>
    by_cases h : a = t
    · subst h
      simp [List.count_cons, ih]
    · have hg' : ¬ g a = g t := fun hc => h (hg a t hc)
      simp [List.count_cons, h, hg', ih]

/-! ## Concrete fixtures (the breakpoint set of the package's own test suite) -/

/-- A browser environment in which only `(min-width: 1024px)` currently
matches. -/
def envBrowser : Env :=
  Env.mk false true (fun q => q == "(min-width: 1024px)")

/-- A server environment: no `window`, no `matchMedia`. -/
def envServer : Env :=
  Env.mk true false (fun _ => false)

/-- The empty options record (all options left unset). -/
def optsDefault : BreakpointOptions :=
  BreakpointOptions.mk none none none

/-- Options selecting the desktop-first responsive mode. -/
def optsDesktop : BreakpointOptions :=
  BreakpointOptions.mk (some ResponsiveMode.desktopFirst) none none

/-- Options disabling change watching. -/
def optsNoWatch : BreakpointOptions :=
  BreakpointOptions.mk none (some false) none

/-- Options supplying an all-true fallback mapping. -/
def optsFallback : BreakpointOptions :=
  BreakpointOptions.mk none none (some [("sm", true), ("lg", true), ("xl", true)])

/-- The breakpoint set used in the package's tests. -/
def bpsDemo : Breakpoints :=
  [("sm", "640px"), ("lg", "1024px"), ("xl", "1280px")]

/-! ## The claims -/

/-- C1: for every breakpoint set whose keys are distinct (as the keys of
a JS object are) and every entry `(name, width)` in it, when the query
facility is available `createBreakpoints` builds, one per breakpoint and
in declaration order, the query `"(min-width: <width>)"` when
`responsiveMode` is unset or `"mobile-first"`, and `"(max-width:
<width>)"` when it is `"desktop-first"`. -/
theorem createBreakpoints_builds_direction_queries (env : Env) (opts : BreakpointOptions)
    (bps : Breakpoints) (hsup : checkMqSupported env = true)
    (hnd : (bps.map Prod.fst).Nodup) :
    ((opts.responsiveMode = none ∨ opts.responsiveMode = some ResponsiveMode.mobileFirst) →
      mqlInstances env opts bps = bps.map (fun p => (p.1, "(min-width: " ++ p.2 ++ ")"))) ∧
    (opts.responsiveMode = some ResponsiveMode.desktopFirst →
      mqlInstances env opts bps = bps.map (fun p => (p.1, "(max-width: " ++ p.2 ++ ")"))) := by
  constructor
  · intro hm
    rw [mqlInstances_eq_map env opts bps hsup hnd]
    rcases hm with hm | hm <;> rw [hm] <;> rfl
  · intro hm
    rw [mqlInstances_eq_map env opts bps hsup hnd, hm]
    rfl

/-- Witness for C1 on the test fixture: both modes at a concrete
three-breakpoint set in a browser environment. -/
theorem createBreakpoints_builds_direction_queries_witness :
    (checkMqSupported envBrowser = true ∧ (bpsDemo.map Prod.fst).Nodup) ∧
    (((optsDefault.responsiveMode = none ∨
        optsDefault.responsiveMode = some ResponsiveMode.mobileFirst) →
      mqlInstances envBrowser optsDefault bpsDemo
        = bpsDemo.map (fun p => (p.1, "(min-width: " ++ p.2 ++ ")"))) ∧
    (optsDefault.responsiveMode = some ResponsiveMode.desktopFirst →
      mqlInstances envBrowser optsDefault bpsDemo
        = bpsDemo.map (fun p => (p.1, "(max-width: " ++ p.2 ++ ")")))) :=
  ⟨⟨by decide, by decide⟩,
    createBreakpoints_builds_direction_queries envBrowser optsDefault bpsDemo
      (by decide) (by decide)⟩

/-- C2: when the query facility is available, the initial mapping pairs
each breakpoint key with the current match state of the query handle
built for that key; the per-key lookup depends only on that key's own
query, so two environments agreeing on key `k`'s query (however much
they differ on every other query) give `k` the same initial value. -/
theorem createBreakpoints_initial_matches_per_key (env : Env) (opts : BreakpointOptions)
    (bps : Breakpoints) (hsup : checkMqSupported env = true)
    (hnd : (bps.map Prod.fst).Nodup) :
    getInitialMatches env opts bps
      = bps.map (fun p => (p.1, env.matchMedia (buildMediaQuery opts.responsiveMode p.2))) ∧
    (∀ k w, (k, w) ∈ bps →
      List.lookup k (getInitialMatches env opts bps)
        = some (env.matchMedia (buildMediaQuery opts.responsiveMode w))) ∧
    (∀ env' : Env, checkMqSupported env' = true → ∀ k w, (k, w) ∈ bps →
      env.matchMedia (buildMediaQuery opts.responsiveMode w)
        = env'.matchMedia (buildMediaQuery opts.responsiveMode w) →
      List.lookup k (getInitialMatches env opts bps)
        = List.lookup k (getInitialMatches env' opts bps)) := by
  have hmap : getInitialMatches env opts bps
      = bps.map (fun p => (p.1, env.matchMedia (buildMediaQuery opts.responsiveMode p.2))) :=
    getInitialMatches_eq_map env opts bps hsup hnd
  have hlook : ∀ k w, (k, w) ∈ bps →
      List.lookup k (getInitialMatches env opts bps)
        = some (env.matchMedia (buildMediaQuery opts.responsiveMode w)) := by
    intro k w hmem
    rw [hmap]
    exact lookup_map_of_mem
      (fun p => env.matchMedia (buildMediaQuery opts.responsiveMode p.2)) bps hnd k w hmem
  refine ⟨hmap, hlook, ?_⟩
  intro env' hsup' k w hmem hagree
  have hlook' : List.lookup k (getInitialMatches env' opts bps)
      = some (env'.matchMedia (buildMediaQuery opts.responsiveMode w)) := by
    rw [getInitialMatches_eq_map env' opts bps hsup' hnd]
    exact lookup_map_of_mem
      (fun p => env'.matchMedia (buildMediaQuery opts.responsiveMode p.2)) bps hnd k w hmem
  rw [hlook k w hmem, hlook', hagree]

/-- Witness for C2 at the test fixture: in `envBrowser` only the
`lg` query matches, so the initial mapping is `sm,xl ↦ false, lg ↦ true`. -/
theorem createBreakpoints_initial_matches_per_key_witness :
    (checkMqSupported envBrowser = true ∧ (bpsDemo.map Prod.fst).Nodup) ∧
    (getInitialMatches envBrowser optsDefault bpsDemo
      = bpsDemo.map
          (fun p => (p.1, envBrowser.matchMedia (buildMediaQuery optsDefault.responsiveMode p.2))) ∧
    (∀ k w, (k, w) ∈ bpsDemo →
      List.lookup k (getInitialMatches envBrowser optsDefault bpsDemo)
        = some (envBrowser.matchMedia (buildMediaQuery optsDefault.responsiveMode w))) ∧
    (∀ env' : Env, checkMqSupported env' = true → ∀ k w, (k, w) ∈ bpsDemo →
      envBrowser.matchMedia (buildMediaQuery optsDefault.responsiveMode w)
        = env'.matchMedia (buildMediaQuery optsDefault.responsiveMode w) →
      List.lookup k (getInitialMatches envBrowser optsDefault bpsDemo)
        = List.lookup k (getInitialMatches env' optsDefault bpsDemo))) :=
  ⟨⟨by decide, by decide⟩,
    createBreakpoints_initial_matches_per_key envBrowser optsDefault bpsDemo
      (by decide) (by decide)⟩

/-- C3: when the query facility is unavailable, the mapping returned by
`createBreakpoints` is exactly `options.fallbackMatch` when supplied and
the all-false mapping derived from the breakpoint keys otherwise, and no
sequence of change events alters it; the dedicated server entry point
returns the same mapping. -/
theorem createBreakpoints_unsupported_returns_fallback (env : Env) (opts : BreakpointOptions)
    (bps : Breakpoints) (events : List (String × Bool))
    (hsup : checkMqSupported env = false) :
    (∀ f, opts.fallbackMatch = some f →
      runMatches env opts bps events = f ∧ serverCreateBreakpoints bps opts = f) ∧
    (opts.fallbackMatch = none →
      runMatches env opts bps events = getEmptyMatchesFromBreakpoints bps ∧
      serverCreateBreakpoints bps opts = getEmptyMatchesFromBreakpoints bps) := by
  have hrun : runMatches env opts bps events = opts.fallbackMatch.getD
      (getEmptyMatchesFromBreakpoints bps) := by
    rw [runMatches_of_no_listeners env opts bps events
      (listenerTokens_of_unsupported env opts bps hsup)]
    unfold getInitialMatches
    rw [if_pos hsup]
  constructor
  · intro f hf
    rw [hrun]
    unfold serverCreateBreakpoints
    rw [hf]
    exact ⟨rfl, rfl⟩
  · intro hf
    rw [hrun]
    unfold serverCreateBreakpoints
    rw [hf]
    exact ⟨rfl, rfl⟩

/-- Witness for C3: on the server, with and without a fallback mapping,
after an (ignored) change event. -/
theorem createBreakpoints_unsupported_returns_fallback_witness :
    checkMqSupported envServer = false ∧
    ((∀ f, optsFallback.fallbackMatch = some f →
      runMatches envServer optsFallback bpsDemo [("sm", true)] = f ∧
      serverCreateBreakpoints bpsDemo optsFallback = f) ∧
    (optsFallback.fallbackMatch = none →
      runMatches envServer optsFallback bpsDemo [("sm", true)]
        = getEmptyMatchesFromBreakpoints bpsDemo ∧
      serverCreateBreakpoints bpsDemo optsFallback
        = getEmptyMatchesFromBreakpoints bpsDemo)) :=
  ⟨by decide,
    createBreakpoints_unsupported_returns_fallback envServer optsFallback bpsDemo
      [("sm", true)] (by decide)⟩

/-- An interactive (non-server) environment whose `window` lacks
`matchMedia`: the query facility is unavailable although the code is
not running on the server.  The package's own tests simulate it by
setting `window.matchMedia = undefined`. -/
def envHeadless : Env :=
  Env.mk false false (fun _ => false)

/-- C4 counterexample: the claim says that whenever the query facility
is unavailable `createMediaQuery` returns a value fixed at the fallback
argument with no query evaluation and no subscription; both
unavailable-facility code paths other than the `isServer` branch
violate it.  The drop-in server implementation (`server.ts`) is
`() => false`: it ignores the fallback, so at fallback `true` it yields
`false`.  And in an interactive environment without `window.matchMedia`
(a headless environment), the main implementation calls
`window.matchMedia(query)` unconditionally and throws — embedded as
`none` — so it returns no value at all, let alone the fallback. -/
theorem createMediaQuery_fallback_counterexample :
    ¬ (serverCreateMediaQuery "(min-width: 768px)" true true).state = true ∧
    createMediaQuery envHeadless "(min-width: 768px)" true true = none := by
  exact ⟨by decide, rfl⟩

/-- C4 (amended): when the environment is non-interactive (`isServer`),
the main implementation of `createMediaQuery` returns a value fixed at
the fallback argument, evaluating no query and adding no listener; in
an interactive environment lacking the query facility
(`window.matchMedia` missing) it instead throws on the attempted query
evaluation and returns nothing, reaching no subscription; the server
drop-in variant evaluates no query and adds no listener, but its value
is fixed at `false` regardless of the fallback argument. -/
theorem createMediaQuery_unavailable_no_subscription (env envH : Env) (query : String)
    (fb wc : Bool) (hs : env.isServer = true) (hb : envH.isServer = false)
    (hm : envH.hasMatchMedia = false) :
    createMediaQuery env query fb wc = some (MediaQueryResult.mk fb [] 0) ∧
    createMediaQuery envH query fb wc = none ∧
    serverCreateMediaQuery query fb wc = MediaQueryResult.mk false [] 0 := by
  refine ⟨?_, ?_, rfl⟩
  · unfold createMediaQuery
    rw [if_pos hs]
  · unfold createMediaQuery
    rw [hb, hm]
    rfl

/-- Witness for C4 (amended) at a concrete server environment, a
concrete headless browser environment and a concrete query. -/
theorem createMediaQuery_unavailable_no_subscription_witness :
    (envServer.isServer = true ∧ envHeadless.isServer = false ∧
      envHeadless.hasMatchMedia = false) ∧
    (createMediaQuery envServer "(min-width: 768px)" true true
      = some (MediaQueryResult.mk true [] 0) ∧
    createMediaQuery envHeadless "(min-width: 768px)" true true = none ∧
    serverCreateMediaQuery "(min-width: 768px)" true true
      = MediaQueryResult.mk false [] 0) :=
  ⟨⟨by decide, by decide, by decide⟩,
    createMediaQuery_unavailable_no_subscription envServer envHeadless
      "(min-width: 768px)" true true (by decide) (by decide) (by decide)⟩

/-- C5: a change notification delivered on breakpoint `k`'s handle (one
carrying a registered listener) sets `k`'s entry of the mapping to the
notification's match boolean and leaves the lookup of every other key
unchanged. -/
theorem change_event_updates_only_its_key (env : Env) (opts : BreakpointOptions)
    (bps : Breakpoints) (m : Matches) (k : String) (b : Bool)
    (hk : k ∈ listenerTokens env opts bps) :
    List.lookup k (deliverEvent env opts bps m (k, b)) = some b ∧
    ∀ k', k' ≠ k → List.lookup k' (deliverEvent env opts bps m (k, b)) = List.lookup k' m := by
  unfold deliverEvent setMatches
  rw [if_pos hk]
  exact ⟨lookup_objSet_self m k b, fun k' h => lookup_objSet_ne m b h⟩

/-- Witness for C5: a `change` event with `matches = true` on the `lg`
handle of the test fixture. -/
theorem change_event_updates_only_its_key_witness :
    "lg" ∈ listenerTokens envBrowser optsDefault bpsDemo ∧
    (List.lookup "lg" (deliverEvent envBrowser optsDefault bpsDemo
        (getInitialMatches envBrowser optsDefault bpsDemo) ("lg", false)) = some false ∧
    ∀ k', k' ≠ "lg" →
      List.lookup k' (deliverEvent envBrowser optsDefault bpsDemo
          (getInitialMatches envBrowser optsDefault bpsDemo) ("lg", false))
        = List.lookup k' (getInitialMatches envBrowser optsDefault bpsDemo)) :=
  ⟨by decide,
    change_event_updates_only_its_key envBrowser optsDefault bpsDemo
      (getInitialMatches envBrowser optsDefault bpsDemo) "lg" false (by decide)⟩

/-- C6: whenever the supplied `fallbackMatch` (if any) has the
breakpoint set's key set — which the `Matches<T>` type of the options
record guarantees — the key set of the mapping equals the key set of
the breakpoint set at construction and after every sequence of change
notifications. -/
theorem matches_keyset_invariant (env : Env) (opts : BreakpointOptions) (bps : Breakpoints)
    (events : List (String × Bool))
    (hfb : ∀ f, opts.fallbackMatch = some f →
      ∀ k, k ∈ f.map Prod.fst ↔ k ∈ bps.map Prod.fst) :
    ∀ k, k ∈ (runMatches env opts bps events).map Prod.fst ↔ k ∈ bps.map Prod.fst := by
  unfold runMatches
  have step : ∀ (evs : List (String × Bool)) (m : Matches),
      (∀ k, k ∈ m.map Prod.fst ↔ k ∈ bps.map Prod.fst) →
      ∀ k, k ∈ (evs.foldl (deliverEvent env opts bps) m).map Prod.fst ↔
        k ∈ bps.map Prod.fst := by
    intro evs
    induction evs with
    | nil => intro m hm; exact hm
    | cons e rest ih =>
      intro m hm
      exact ih _ (mem_keys_deliverEvent env opts bps m e hm)
  exact step events _ (mem_keys_getInitialMatches env opts bps hfb)

/-- Witness for C6: the test fixture in a browser, after two change
events (one on a registered handle, one on an unknown token). -/
theorem matches_keyset_invariant_witness :
    (∀ f, optsDefault.fallbackMatch = some f →
      ∀ k, k ∈ f.map Prod.fst ↔ k ∈ bpsDemo.map Prod.fst) ∧
    ∀ k, k ∈ (runMatches envBrowser optsDefault bpsDemo
        [("sm", true), ("nope", true)]).map Prod.fst ↔ k ∈ bpsDemo.map Prod.fst :=
  ⟨(fun _ hf => nomatch hf),
    matches_keyset_invariant envBrowser optsDefault bpsDemo [("sm", true), ("nope", true)]
      (fun _ hf => nomatch hf)⟩

/-- C7: with `watchChange = false` the effect registers no change
listener at all — whether or not the facility is available — and hence
the mapping after any sequence of change events is still the initial
mapping. -/
theorem no_watch_registers_no_listeners (env : Env) (opts : BreakpointOptions)
    (bps : Breakpoints) (events : List (String × Bool))
    (hw : opts.watchChange = some false) :
    effectAdds env opts bps = [] ∧
    runMatches env opts bps events = getInitialMatches env opts bps := by
  have hl : listenerTokens env opts bps = [] := listenerTokens_of_no_watch env opts bps hw
  constructor
  · unfold effectAdds
    rw [hl]
    rfl
  · exact runMatches_of_no_listeners env opts bps events hl

/-- Witness for C7: watching disabled in a browser environment where
the facility is available, after two change events. -/
theorem no_watch_registers_no_listeners_witness :
    optsNoWatch.watchChange = some false ∧
    (effectAdds envBrowser optsNoWatch bpsDemo = [] ∧
    runMatches envBrowser optsNoWatch bpsDemo [("sm", true), ("lg", false)]
      = getInitialMatches envBrowser optsNoWatch bpsDemo) :=
  ⟨by decide,
    no_watch_registers_no_listeners envBrowser optsNoWatch bpsDemo
      [("sm", true), ("lg", false)] (by decide)⟩

/-- C8: with watching on and the facility available (keys distinct, as
in a JS object), scope disposal performs one `removeEventListener` per
observed breakpoint — as many removals as breakpoints — and for every
token the number of removals equals the number of registrations, so
each registered listener is removed exactly once; the removals are the
single `disposeRemovals` batch, executed together, with no other
removal path in the code. -/
theorem dispose_removes_every_listener_once (env : Env) (opts : BreakpointOptions)
    (bps : Breakpoints) (hw : opts.watchChange.getD true = true)
    (hsup : checkMqSupported env = true) (hnd : (bps.map Prod.fst).Nodup) :
    (disposeRemovals env opts bps).length = bps.length ∧
    ∀ t, (disposeRemovals env opts bps).count (Action.removeListener t)
        = (effectAdds env opts bps).count (Action.addListener t) := by
  have hl : listenerTokens env opts bps = bps.map Prod.fst :=
    listenerTokens_eq_keys env opts bps hw hsup hnd
  constructor
  · unfold disposeRemovals
    rw [hl]
    simp
  · intro t
    unfold disposeRemovals effectAdds
    rw [hl]
    rw [count_map_injective Action.removeListener
      (fun a b h => Action.removeListener.injEq a b ▸ h) _ t]
    rw [count_map_injective Action.addListener
      (fun a b h => Action.addListener.injEq a b ▸ h) _ t]

/-- Witness for C8 at the three-breakpoint fixture: three removals. -/
theorem dispose_removes_every_listener_once_witness :
    (optsDefault.watchChange.getD true = true ∧ checkMqSupported envBrowser = true ∧
      (bpsDemo.map Prod.fst).Nodup) ∧
    ((disposeRemovals envBrowser optsDefault bpsDemo).length = bpsDemo.length ∧
    ∀ t, (disposeRemovals envBrowser optsDefault bpsDemo).count (Action.removeListener t)
        = (effectAdds envBrowser optsDefault bpsDemo).count (Action.addListener t)) :=
  ⟨⟨by decide, by decide, by decide⟩,
    dispose_removes_every_listener_once envBrowser optsDefault bpsDemo
      (by decide) (by decide) (by decide)⟩

/-- C9: the shared helper returns, for a breakpoint set (keys distinct,
as in a JS object), the mapping pairing each breakpoint key, in order,
with `false` — so its key set is the breakpoint set's and every value is
`false`.  It is embedded as a pure function of the breakpoint list and
does not touch its argument. -/
theorem getEmptyMatches_keys_all_false (bps : Breakpoints)
    (hnd : (bps.map Prod.fst).Nodup) :
    getEmptyMatchesFromBreakpoints bps = bps.map (fun p => (p.1, false)) ∧
    (∀ k, k ∈ (getEmptyMatchesFromBreakpoints bps).map Prod.fst ↔ k ∈ bps.map Prod.fst) ∧
    ∀ q ∈ getEmptyMatchesFromBreakpoints bps, q.2 = false := by
  have hmap := getEmptyMatches_eq_map bps hnd
  refine ⟨hmap, ?_, ?_⟩
  · intro k
    unfold getEmptyMatchesFromBreakpoints
    simpa using mem_keys_foldl_objSet (fun _ => false) bps [] k
  · intro q hq
    rw [hmap] at hq
    obtain ⟨p, _, hpq⟩ := List.mem_map.mp hq
    rw [← hpq]

/-- Witness for C9 at the three-breakpoint fixture. -/
theorem getEmptyMatches_keys_all_false_witness :
    (bpsDemo.map Prod.fst).Nodup ∧
    (getEmptyMatchesFromBreakpoints bpsDemo = bpsDemo.map (fun p => (p.1, false)) ∧
    (∀ k, k ∈ (getEmptyMatchesFromBreakpoints bpsDemo).map Prod.fst ↔
      k ∈ bpsDemo.map Prod.fst) ∧
    ∀ q ∈ getEmptyMatchesFromBreakpoints bpsDemo, q.2 = false) :=
  ⟨by decide, getEmptyMatches_keys_all_false bpsDemo (by decide)⟩

/-- C10: when the query facility is available, the mapping — initially
and after any identical sequence of change notifications — is identical
for two invocations differing only in the `fallbackMatch` option:
`fallbackMatch` is consulted only on the facility-unavailable branch. -/
theorem fallbackMatch_noninterference (env : Env) (rm : Option ResponsiveMode)
    (wc : Option Bool) (fb fb' : Option Matches) (bps : Breakpoints)
    (events : List (String × Bool)) (hsup : checkMqSupported env = true) :
    runMatches env (BreakpointOptions.mk rm wc fb) bps events
      = runMatches env (BreakpointOptions.mk rm wc fb') bps events := by
  unfold runMatches getInitialMatches
  rw [hsup]
  rfl

/-- Witness for C10: a browser invocation with and without an all-true
fallback mapping, after one change event. -/
theorem fallbackMatch_noninterference_witness :
    checkMqSupported envBrowser = true ∧
    runMatches envBrowser (BreakpointOptions.mk none none
        (some [("sm", true), ("lg", true), ("xl", true)])) bpsDemo [("xl", true)]
      = runMatches envBrowser (BreakpointOptions.mk none none none) bpsDemo [("xl", true)] :=
  ⟨by decide,
    fallbackMatch_noninterference envBrowser none none
      (some [("sm", true), ("lg", true), ("xl", true)]) none bpsDemo [("xl", true)]
      (by decide)⟩

end SolidMedia
